import Mathlib

/-!
Shallow embedding of the Meyerhof bearing-capacity analysis code
(`src/geotechnical_params.py` and `src/capacity_calc.py`).

Numbers are modelled over an arbitrary linear ordered field `α` (instantiated
at `ℚ` for concrete evaluations).  The external math-library primitives used by
the Python code (`math.tan`, `math.exp`, `math.pi` and the `** 0.5` square
root) are opaque to the program logic, so they are passed in as a `MathOps`
record; every structural property is proved for all values of these
primitives, and concrete witnesses instantiate them with simple rational
functions.

Python's `None` value is modelled as `Option.none`; a raised exception
(pandas `KeyError` from a `None` label, `NameError` from an undefined loop
variable) is modelled as `Except.error` with the exception's name.
-/

namespace Meyerhof

/-- Error message used to model a pandas `KeyError` raised on a `None` label. -/
def keyError : String := "KeyError"

/-- Error message used to model a Python `NameError` (loop variable never assigned). -/
def nameError : String := "NameError"

/-- Label for the clay-on-clay interaction case (`"case1"` in the source). -/
def caseClayClay : String := "case1"

/-- Label for the c-phi on c-phi interaction case (`"case2"` in the source). -/
def caseAvg : String := "case2"

/-- Label for the sand-on-clay interaction case (`"case3_a"` in the source). -/
def caseSandClay : String := "case3_a"

/-- Label for the clay-on-sand interaction case (`"case3_b"` in the source). -/
def caseClaySand : String := "case3_b"

/-- Design-code identifier `"Bowles_FS_3.0"`. -/
def codeBowles : String := "Bowles_FS_3.0"

/-- Design-code identifier `"AASHTO_2020"`. -/
def codeAASHTO : String := "AASHTO_2020"

/-- A design-code identifier not recognized by `calculate_allowable_capacity`. -/
def codeOther : String := "NSR_10"

/-- Compliance mark for a passing footing. -/
def passMark : String := "✅"

/-- Compliance mark for a failing footing. -/
def failMark : String := "❌"

/-- Opaque math-library primitives used by the Python code: `math.tan`,
`math.exp`, `x ** 0.5` and `math.pi`. -/
structure MathOps (α : Type) where
  tan : α → α
  exp : α → α
  sqrt : α → α
  pi : α

variable {α : Type} [LinearOrderedField α]

/-- Model of `math.radians(x) = x * pi / 180`. -/
def radiansOf (ops : MathOps α) (x : α) : α := x * ops.pi / 180

/-- Abbreviation for `math.tan(math.radians(x))`, tangent of an angle in degrees. -/
def tanDeg (ops : MathOps α) (x : α) : α := ops.tan (radiansOf ops x)

/-- One row of the geotechnical DataFrame: a soil stratum.  The row label
(`Stratum ID`) is modelled by the row's position in the profile list. -/
structure Stratum (α : Type) where
  description : String
  initialDepth : α
  finalDepth : α
  unitWeightMoist : α
  unitWeightSaturated : α
  cohesion : α
  frictionAngle : α
deriving DecidableEq

/-- Model of `get_stratum_id` (`geotechnical_params.py`): iterate over the rows
in order and return the first stratum whose `[Initial Depth, Final Depth)`
interval contains `Df`.  The Python function has no `else` branch: when no
stratum matches it implicitly returns `None`, modelled as `none`. -/
def get_stratum_id (profile : List (Stratum α)) (Df : α) : Option Nat :=
  match profile with
  | [] => none
  | s :: rest =>
    if s.initialDepth ≤ Df ∧ Df < s.finalDepth then some 0
    else (get_stratum_id rest Df).map (· + 1)

/-- Model of `get_stratum_description`: same search, returning the located
stratum's description, or silently `none` when the depth is uncovered. -/
def get_stratum_description (profile : List (Stratum α)) (Df : α) : Option String :=
  match profile with
  | [] => none
  | s :: rest =>
    if s.initialDepth ≤ Df ∧ Df < s.finalDepth then some s.description
    else get_stratum_description rest Df

/-- Model of `get_stratum_parameters`: cohesion and friction angle of the
stratum containing `Df` and of the stratum below it; the last stratum repeats
its own parameters.  When `get_stratum_id` returned `None`, the subsequent
`df.loc[None, ...]` raises a pandas `KeyError`, modelled as `Except.error`. -/
def get_stratum_parameters (profile : List (Stratum α)) (Df : α) :
    Except String (α × α × α × α) :=
  match get_stratum_id profile Df with
  | none => .error keyError
  | some i =>
    match profile.get? i with
    | none => .error keyError
    | some s =>
      if i < profile.length - 1 then
        match profile.get? (i + 1) with
        | none => .error keyError
        | some t => .ok (s.cohesion, s.frictionAngle, t.cohesion, t.frictionAngle)
      else
        .ok (s.cohesion, s.frictionAngle, s.cohesion, s.frictionAngle)

/-- `WATER_UNIT_WEIGHT = 9.81` kN/m³. -/
def waterUnitWeight : α := 981 / 100

/-- Loop state of `calculate_effective_overburden`: the accumulated overburden
and the moist/submerged unit weights of the last stratum the loop touched
(`y_stratum` / `y_submerged` leak out of the Python `for` loop). -/
structure OverState (α : Type) where
  qBar : α
  lastWeights : Option (α × α)

/-- One iteration of the overburden loop in `calculate_effective_overburden`. -/
def overburden_step (Df GWL : α) (st : OverState α) (row : Stratum α) : OverState α :=
  let thicknessOpt : Option α :=
    if row.finalDepth ≤ Df then some (row.finalDepth - row.initialDepth)
    else if row.initialDepth ≤ Df ∧ Df ≤ row.finalDepth then some (Df - row.initialDepth)
    else none
  match thicknessOpt with
  | none => st
  | some thickness =>
    let yStratum := row.unitWeightMoist
    let ySubmerged := row.unitWeightSaturated - waterUnitWeight
    let dq :=
      if GWL ≥ Df then thickness * yStratum
      else if GWL ≤ row.initialDepth then thickness * ySubmerged
      else
        let hMoist := max 0 (min (GWL - row.initialDepth) thickness)
        let hSub := max 0 (thickness - hMoist)
        hMoist * yStratum + hSub * ySubmerged
    ⟨st.qBar + dq, some (yStratum, ySubmerged)⟩

/-- Model of `calculate_effective_overburden`: effective overburden `q_bar` at
depth `Df` and the effective unit weight `gamma_bar` for the capacity factors.
If the loop never touched a stratum, the Python code would read the undefined
loop variables `y_stratum` / `y_submerged` and raise a `NameError`. -/
def calculate_effective_overburden (profile : List (Stratum α)) (Df GWL B : α) :
    Except String (α × α) :=
  let st := profile.foldl (overburden_step Df GWL) ⟨0, none⟩
  match st.lastWeights with
  | none => .error nameError
  | some (yStratum, ySubmerged) =>
    let gammaBar :=
      if GWL < Df then ySubmerged
      else if GWL - Df < B then ySubmerged + ((GWL - Df) / B) * (yStratum - ySubmerged)
      else yStratum
    .ok (st.qBar, gammaBar)

/-- Meyerhof bearing-capacity factors and shape/depth/inclination corrections
for a friction angle `fi` (degrees), as computed in `meyerhof_capacity` for
layer 1 (lines 59-81) and, with identical formulas, for layer 2 (lines 96-112). -/
structure Factors (α : Type) where
  kp : α
  Nq : α
  Nc : α
  Ny : α
  Sc : α
  Sq : α
  Sy : α
  dc : α
  dq : α
  dy : α
  ic : α
  iq : α
  iy : α

/-- Capacity-factor block of `meyerhof_capacity` for a given friction angle. -/
def capacity_factors (ops : MathOps α) (fi Df B L Theta : α) : Factors α :=
  let kp := (tanDeg ops (45 + fi / 2)) ^ 2
  let Nq := ops.exp (ops.pi * tanDeg ops fi) * (tanDeg ops (45 + fi / 2)) ^ 2
  let Nc := (Nq - 1) / tanDeg ops fi
  let Ny := (Nq - 1) * tanDeg ops ((7 / 5) * fi)
  let Sc := 1 + (1 / 5) * kp * (B / L)
  let Sq := if fi > 10 then 1 + (1 / 10) * kp * (B / L) else 1
  let Sy := Sq
  let dc := 1 + (1 / 5) * ops.sqrt kp * (Df / B)
  let dq := if fi > 10 then 1 + (1 / 10) * ops.sqrt kp * (Df / B) else 1
  let dy := dq
  let ic := (1 - Theta / 90) ^ 2
  let iq := ic
  let iy := if fi > 0 then (1 - Theta / fi) ^ 2 else if Theta > 0 then 0 else 1
  ⟨kp, Nq, Nc, Ny, Sc, Sq, Sy, dc, dq, dy, ic, iq, iy⟩

/-- Single-layer ultimate capacity
`q_ult = c·Nc·Sc·dc·ic + q_bar·Nq·Sq·dq·iq + 0.5·gamma_bar·B·Ny·Sy·dy·iy`,
exactly as evaluated for `q_ult_1` (line 89) and `q_ult_2` (line 115). -/
def q_ult_layer (ops : MathOps α) (c fi qBar yBar Df B L Theta : α) : α :=
  let F := capacity_factors ops fi Df B L Theta
  c * F.Nc * F.Sc * F.dc * F.ic + qBar * F.Nq * F.Sq * F.dq * F.iq
    + (1 / 2) * yBar * B * F.Ny * F.Sy * F.dy * F.iy

/-- Soil classification of the layer pair (`meyerhof_capacity` lines 131-143):
clay means friction angle below `epsilon`, sand means cohesion below `epsilon`. -/
def classify_case (c1 fi1 c2 fi2 epsilon : α) : String :=
  if fi1 < epsilon ∧ fi2 < epsilon then caseClayClay
  else if c1 < epsilon ∧ fi2 < epsilon then caseSandClay
  else if fi1 < epsilon ∧ c2 < epsilon then caseClaySand
  else caseAvg

/-- Clay-on-clay corrected cohesion factor, branch `CR < 0.7`. -/
def Ncs_low (CR d1 B : α) : α := (3 / 2) * d1 / B + (257 / 50) * CR

/-- Clay-on-clay corrected cohesion factor, branch `0.7 ≤ CR ≤ 1`. -/
def Ncs_mid (CR d1 B : α) : α := (9 / 10) * ((3 / 2) * d1 / B + (257 / 50) * CR)

/-- Clay-on-clay corrected cohesion factor, branch `CR > 1`
(`N1s = 4.14 + 0.5·B/(d1+ε)`, `N2s = 4.14 + 1.1·B/(d1+ε)`,
`Ncs = 2·N1s·N2s/(N1s+N2s+ε)`). -/
def Ncs_high (d1 B epsilon : α) : α :=
  let N1s := 207 / 50 + (1 / 2) * B / (d1 + epsilon)
  let N2s := 207 / 50 + (11 / 10) * B / (d1 + epsilon)
  2 * ((N1s * N2s) / (N1s + N2s + epsilon))

/-- Piecewise corrected cohesion factor `Ncs` of the clay-on-clay case
(`meyerhof_capacity` lines 150-160), including the dead `Ncs = 0` default. -/
def clay_Ncs (CR d1 B epsilon : α) : α :=
  if CR < 7 / 10 then Ncs_low CR d1 B
  else if 7 / 10 ≤ CR ∧ CR ≤ 1 then Ncs_mid CR d1 B
  else if 1 < CR then Ncs_high d1 B epsilon
  else 0

/-- Controlling capacity of the clay-on-clay case: the layer-1 formula with
`Ncs` substituted for `Nc` (line 163). -/
def clay_clay_value (ops : MathOps α) (c1 fi1 c2 d1 qBar yBar Df B L Theta epsilon : α) : α :=
  let F1 := capacity_factors ops fi1 Df B L Theta
  let CR := c2 / (c1 + epsilon)
  let Ncs := clay_Ncs CR d1 B epsilon
  c1 * Ncs * F1.Sc * F1.dc * F1.ic + qBar * F1.Nq * F1.Sq * F1.dq * F1.iq
    + (1 / 2) * yBar * B * F1.Ny * F1.Sy * F1.dy * F1.iy

/-- Controlling capacity of the c-phi on c-phi case (lines 165-187):
depth-weighted average parameters over the influence zone, with `Sc, dc, ic, iq`
reused from layer 1 and the remaining factors recomputed from `fi_avg`. -/
def cphi_avg_value (ops : MathOps α) (c1 fi1 c2 fi2 d1 qBar yBar Df B L Theta epsilon : α) : α :=
  let H := (B / 2) * tanDeg ops (45 + fi1 / 2)
  let F1 := capacity_factors ops fi1 Df B L Theta
  let fiAvg := (d1 * fi1 + (H - d1) * fi2) / (H + epsilon)
  let cAvg := (d1 * c1 + (H - d1) * c2) / (H + epsilon)
  let NqAvg := ops.exp (ops.pi * tanDeg ops fiAvg) * (tanDeg ops (45 + fiAvg / 2)) ^ 2
  let NcAvg := (NqAvg - 1) / tanDeg ops fiAvg
  let NyAvg := (NqAvg - 1) * tanDeg ops ((7 / 5) * fiAvg)
  let kpAvg := (tanDeg ops (45 + fiAvg / 2)) ^ 2
  let SqAvg := if fiAvg > 10 then 1 + (1 / 10) * kpAvg * (B / L) else 1
  let SyAvg := SqAvg
  let dqAvg := if fiAvg > 10 then 1 + (1 / 10) * ops.sqrt kpAvg * (Df / B) else 1
  let dyAvg := dqAvg
  let iyAvg := if fiAvg > 0 then (1 - Theta / fiAvg) ^ 2 else if Theta > 0 then 0 else 1
  cAvg * NcAvg * F1.Sc * F1.dc * F1.ic + qBar * NqAvg * SqAvg * dqAvg * F1.iq
    + (1 / 2) * yBar * B * NyAvg * SyAvg * dyAvg * iyAvg

/-- Punching-shear candidate capacity `q_ult_prime` of the sand-on-clay /
clay-on-sand case (lines 189-204): `q_ult_2 + P·pv·ks·tan(fi1)/(A+ε) + P·d1·c1/(A+ε)`
with `P = 2(B+L)`, `A = B·L`, `pv = Df·q_bar·d1 + 9.81·d1²/2` and `ks = Kp1`. -/
def punching_prime (ops : MathOps α) (c1 fi1 c2 fi2 d1 qBar yBar Df B L Theta epsilon : α) : α :=
  let P := 2 * (B + L)
  let A_f := B * L
  let pv := Df * qBar * d1 + (981 / 100) * (d1 ^ 2 / 2)
  let ks := (tanDeg ops (45 + fi1 / 2)) ^ 2
  q_ult_layer ops c2 fi2 qBar yBar Df B L Theta
    + (P * pv * ks * tanDeg ops fi1) / (A_f + epsilon)
    + (P * d1 * c1) / (A_f + epsilon)

/-- Two-layer controlling capacity `q_ult_bilayer` (lines 117-210), given the
looked-up parameters, `d1` and the overburden results. -/
def bilayer_value (ops : MathOps α) (c1 fi1 c2 fi2 d1 qBar yBar Df B L Theta epsilon : α) : α :=
  let H := (B / 2) * tanDeg ops (45 + fi1 / 2)
  let q1 := q_ult_layer ops c1 fi1 qBar yBar Df B L Theta
  if d1 ≥ H then q1
  else
    let case := classify_case c1 fi1 c2 fi2 epsilon
    if case = caseClayClay then
      clay_clay_value ops c1 fi1 c2 d1 qBar yBar Df B L Theta epsilon
    else if case = caseAvg then
      cphi_avg_value ops c1 fi1 c2 fi2 d1 qBar yBar Df B L Theta epsilon
    else if case = caseSandClay ∨ case = caseClaySand then
      min q1 (punching_prime ops c1 fi1 c2 fi2 d1 qBar yBar Df B L Theta epsilon)
    else q1

/-- Pure core of `meyerhof_capacity` after the DataFrame lookups:
`(q_ult_single_layer, q_ult_bilayer)`. -/
def meyerhof_core (ops : MathOps α) (c1 fi1 c2 fi2 d1 qBar yBar Df B L Theta epsilon : α) :
    α × α :=
  (q_ult_layer ops c1 fi1 qBar yBar Df B L Theta,
   bilayer_value ops c1 fi1 c2 fi2 d1 qBar yBar Df B L Theta epsilon)

/-- Model of `meyerhof_capacity` (`capacity_calc.py` lines 16-210): look up the
layer parameters, `d1` and the effective overburden, then compute
`(q_ult_single_layer, q_ult_bilayer)`. -/
def meyerhof_capacity (ops : MathOps α) (profile : List (Stratum α))
    (Df B L GWL Theta epsilon : α) : Except String (α × α) :=
  match get_stratum_parameters profile Df with
  | .error e => .error e
  | .ok (c1, fi1, c2, fi2) =>
    match get_stratum_id profile Df with
    | none => .error keyError
    | some sid =>
      match profile.get? sid with
      | none => .error keyError
      | some ds =>
        match calculate_effective_overburden profile Df GWL B with
        | .error e => .error e
        | .ok (qBar, yBar) =>
          .ok (meyerhof_core ops c1 fi1 c2 fi2 (ds.finalDepth - Df) qBar yBar Df B L
            Theta epsilon)

/-- Model of `calculate_allowable_capacity` (lines 214-249): divide the
controlling bilayer capacity by the design-code safety factor
(3 for `"Bowles_FS_3.0"`, `1/0.45` for `"AASHTO_2020"`, 3 as silent default). -/
def calculate_allowable_capacity (ops : MathOps α) (profile : List (Stratum α))
    (Df B L GWL Theta epsilon : α) (Code : String) : Except String (α × α) :=
  match meyerhof_capacity ops profile Df B L GWL Theta epsilon with
  | .error e => .error e
  | .ok (_, q_ult_bilayer) =>
    if Code = codeBowles then .ok (q_ult_bilayer, q_ult_bilayer / 3)
    else if Code = codeAASHTO then .ok (q_ult_bilayer, q_ult_bilayer / (1 / (9 / 20)))
    else .ok (q_ult_bilayer, q_ult_bilayer / 3)

/-- Fail-fast list traversal: Python's `for` loop appending to result lists,
aborting at the first raised exception. -/
def mapExcept {γ β ε' : Type} (f : γ → Except ε' β) : List γ → Except ε' (List β)
  | [] => .ok []
  | x :: xs =>
    match f x with
    | .error e => .error e
    | .ok y =>
      match mapExcept f xs with
      | .error e => .error e
      | .ok ys => .ok (y :: ys)

/-- One row of the capacity table produced by `generate_capacity_table`
(lines 288-291).  `get_stratum_id` / `get_stratum_description` can put `None`
in a row without raising, hence the `Option` fields. -/
structure CapacityRow (α : Type) where
  stratumId : Option Nat
  stratumDesc : Option String
  Df : α
  B : α
  L : α
  ratioBL : α
  c1 : α
  fi1 : α
  c2 : α
  fi2 : α
  qUltSingle : α
  qUltBilayer : α
  ultimateCapacity : α
  allowableCapacity : α
deriving DecidableEq

/-- Body of the `generate_capacity_table` loop for one `(Df, B, L)` combination
with `L ≥ B` (lines 279-291). -/
def capacity_row (ops : MathOps α) (profile : List (Stratum α)) (GWL Theta epsilon : α)
    (Code : String) (t : α × α × α) : Except String (CapacityRow α) :=
  match t with
  | (Df, B, L) =>
    match meyerhof_capacity ops profile Df B L GWL Theta epsilon with
    | .error e => .error e
    | .ok (qUltSingle, qUltBilayer) =>
      match calculate_allowable_capacity ops profile Df B L GWL Theta epsilon Code with
      | .error e => .error e
      | .ok (qUltFinal, qAdm) =>
        match get_stratum_parameters profile Df with
        | .error e => .error e
        | .ok (c1, fi1, c2, fi2) =>
          .ok ⟨get_stratum_id profile Df, get_stratum_description profile Df, Df, B, L,
            B / L, c1, fi1, c2, fi2, qUltSingle, qUltBilayer, qUltFinal, qAdm⟩

/-- Model of `generate_capacity_table` (lines 253-305): every `(Df, B, L)`
combination with `L ≥ B` produces one row; combinations with `L < B` are
silently skipped. -/
def generate_capacity_table (ops : MathOps α) (profile : List (Stratum α))
    (Df_values B_values L_values : List α) (GWL Theta epsilon : α) (Code : String) :
    Except String (List (CapacityRow α)) :=
  mapExcept (capacity_row ops profile GWL Theta epsilon Code)
    (Df_values.flatMap fun Df => B_values.flatMap fun B =>
      (L_values.filter fun L => decide (L ≥ B)).map fun L => (Df, B, L))

/-- One row of the structural footing-configuration table
(`load_footing_configuration`). -/
structure FootingRecord (α : Type) where
  supportName : String
  footingBase : α
  footingLength : α
  embedmentDepth : α
  designLoad : α
deriving DecidableEq

/-- A footing record extended with the four columns added by
`check_structural_design_capacity`. -/
structure CheckedFooting (α : Type) where
  original : FootingRecord α
  ultimateCapacity : α
  allowableCapacity : α
  designStress : α
  capacityCheck : String
deriving DecidableEq

/-- Body of the `check_structural_design_capacity` loop for one footing record
(lines 328-348). -/
def check_footing_row (ops : MathOps α) (profile : List (Stratum α)) (GWL Theta epsilon : α)
    (Code : String) (row : FootingRecord α) : Except String (CheckedFooting α) :=
  match calculate_allowable_capacity ops profile row.embedmentDepth row.footingBase
      row.footingLength GWL Theta epsilon Code with
  | .error e => .error e
  | .ok (qUlt, qAdm) =>
    let designStress := row.designLoad / (row.footingBase * row.footingLength)
    .ok ⟨row, qUlt, qAdm, designStress, if qAdm ≥ designStress then passMark else failMark⟩

/-- Model of `check_structural_design_capacity` (lines 309-356): run the
capacity chain once per footing record and extend the table with the four
result columns (ultimate capacity, allowable capacity, design stress,
pass/fail flag). -/
def check_structural_design_capacity (ops : MathOps α) (profile : List (Stratum α))
    (cfg : List (FootingRecord α)) (GWL Theta epsilon : α) (Code : String) :
    Except String (List (CheckedFooting α)) :=
  mapExcept (check_footing_row ops profile GWL Theta epsilon Code) cfg

/-- Concrete instantiation of the opaque math primitives over `ℚ`, used for
executable witnesses and counterexamples (`tan(45°) = 1` is exact for the real
primitives as well, which keeps the branch conditions of the concrete scenarios
identical to the floating-point run). -/
def dummyOps : MathOps ℚ := ⟨fun _ => 1, fun _ => 1, fun _ => 1, 3⟩

/-- Upper clay stratum of the spec's two-stratum scenario (0-2 m, c = 50 kPa),
with friction angle `1/10000` (an epsilon-adjusted zero). -/
def stratumClayA : Stratum ℚ :=
  { description := "Stratum A"
    initialDepth := 0
    finalDepth := 2
    unitWeightMoist := 20
    unitWeightSaturated := 21
    cohesion := 50
    frictionAngle := 1 / 10000 }

/-- Lower clay stratum of the spec's two-stratum scenario (2-10 m, c = 80 kPa). -/
def stratumClayB : Stratum ℚ :=
  { description := "Stratum B"
    initialDepth := 2
    finalDepth := 10
    unitWeightMoist := 20
    unitWeightSaturated := 21
    cohesion := 80
    frictionAngle := 1 / 10000 }

/-- The spec's clay-over-clay profile (c = 50 kPa over c = 80 kPa). -/
def profClayOverClay : List (Stratum ℚ) := [stratumClayA, stratumClayB]

/-- Lower stratum identical in strength to `stratumClayA` (for the homogeneous
profile scenario). -/
def stratumClayB50 : Stratum ℚ :=
  { description := "Stratum B"
    initialDepth := 2
    finalDepth := 10
    unitWeightMoist := 20
    unitWeightSaturated := 21
    cohesion := 50
    frictionAngle := 1 / 10000 }

/-- Two-stratum profile whose strata have identical cohesion and friction angle. -/
def profHomogeneous : List (Stratum ℚ) := [stratumClayA, stratumClayB50]

/-- Upper stratum with friction angle exactly `epsilon = 1/1000` (a raw zero
adjusted by the same epsilon that the classifier compares against). -/
def stratumClayAEps : Stratum ℚ :=
  { stratumClayA with frictionAngle := 1 / 1000 }

/-- Lower stratum with friction angle exactly `epsilon = 1/1000`. -/
def stratumClayBEps : Stratum ℚ :=
  { stratumClayB with frictionAngle := 1 / 1000 }

/-- The spec's clay-over-clay profile with both friction angles equal to the
runtime epsilon (phi = 0 + epsilon). -/
def profClayOverClayEps : List (Stratum ℚ) := [stratumClayAEps, stratumClayBEps]

/-- Sandy upper stratum (cohesion below epsilon, friction angle 30 degrees). -/
def stratumSand : Stratum ℚ :=
  { description := "Sand"
    initialDepth := 0
    finalDepth := 2
    unitWeightMoist := 20
    unitWeightSaturated := 21
    cohesion := 1 / 10000
    frictionAngle := 30 }

/-- Sand-over-clay profile for the punching-shear branch. -/
def profSandOverClay : List (Stratum ℚ) := [stratumSand, stratumClayB]

/-- Single-stratum profile whose moist unit weight is tuned so that the
single-layer capacity under `dummyOps` is exactly 300 kPa. -/
def stratum300 : Stratum ℚ :=
  { description := "Stratum S"
    initialDepth := 0
    finalDepth := 10
    unitWeightMoist := 30000 / 121
    unitWeightSaturated := 22
    cohesion := 5
    frictionAngle := 20 }

/-- Profile consisting of `stratum300` alone. -/
def prof300 : List (Stratum ℚ) := [stratum300]

/-- A concrete footing record for the compliance-check witness. -/
def footingZ1 : FootingRecord ℚ :=
  { supportName := "Z1"
    footingBase := 1
    footingLength := 1
    embedmentDepth := 1
    designLoad := 100 }

/-- Expected compliance-check output row for `footingZ1` on `prof300`. -/
def checkedZ1 : CheckedFooting ℚ :=
  { original := footingZ1
    ultimateCapacity := 300
    allowableCapacity := 100
    designStress := 100
    capacityCheck := passMark }

/-- Expected capacity-table row for `prof300` with `Df = B = L = 1`. -/
def row300 : CapacityRow ℚ :=
  { stratumId := some 0
    stratumDesc := some stratum300.description
    Df := 1
    B := 1
    L := 1
    ratioBL := 1
    c1 := 5
    fi1 := 20
    c2 := 5
    fi2 := 20
    qUltSingle := 300
    qUltBilayer := 300
    ultimateCapacity := 300
    allowableCapacity := 100 }

/-- Well-formedness of a soil profile (spec §3): each stratum's depth range is
nonempty and consecutive strata are depth-contiguous. -/
def sortedStrataB : List (Stratum α) → Bool
  | [] => true
  | [s] => decide (s.initialDepth < s.finalDepth)
  | s :: t :: rest =>
    (decide (s.initialDepth < s.finalDepth) && decide (s.finalDepth = t.initialDepth))
      && sortedStrataB (t :: rest)

/-! ## Helper lemmas -/

lemma bilayer_value_no_interaction (ops : MathOps α) (c1 fi1 c2 fi2 d1 qBar yBar Df B L Theta
    epsilon : α) (h : d1 ≥ (B / 2) * tanDeg ops (45 + fi1 / 2)) :
    bilayer_value ops c1 fi1 c2 fi2 d1 qBar yBar Df B L Theta epsilon
      = q_ult_layer ops c1 fi1 qBar yBar Df B L Theta := by
  simp only [bilayer_value]
  rw [if_pos h]

lemma bilayer_value_clay (ops : MathOps α) (c1 fi1 c2 fi2 d1 qBar yBar Df B L Theta epsilon : α)
    (hlt : d1 < (B / 2) * tanDeg ops (45 + fi1 / 2))
    (hcase : classify_case c1 fi1 c2 fi2 epsilon = caseClayClay) :
    bilayer_value ops c1 fi1 c2 fi2 d1 qBar yBar Df B L Theta epsilon
      = clay_clay_value ops c1 fi1 c2 d1 qBar yBar Df B L Theta epsilon := by
  simp only [bilayer_value]
  rw [if_neg (by exact not_le.mpr hlt), hcase, if_pos rfl]

lemma bilayer_value_punching (ops : MathOps α) (c1 fi1 c2 fi2 d1 qBar yBar Df B L Theta
    epsilon : α) (hlt : d1 < (B / 2) * tanDeg ops (45 + fi1 / 2))
    (hcase : classify_case c1 fi1 c2 fi2 epsilon = caseSandClay ∨
      classify_case c1 fi1 c2 fi2 epsilon = caseClaySand) :
    bilayer_value ops c1 fi1 c2 fi2 d1 qBar yBar Df B L Theta epsilon
      = min (q_ult_layer ops c1 fi1 qBar yBar Df B L Theta)
          (punching_prime ops c1 fi1 c2 fi2 d1 qBar yBar Df B L Theta epsilon) := by
  simp only [bilayer_value]
  rw [if_neg (by exact not_le.mpr hlt)]
  rcases hcase with h | h
  · rw [h, if_neg (by decide), if_neg (by decide), if_pos (Or.inl rfl)]
  · rw [h, if_neg (by decide), if_neg (by decide), if_pos (Or.inr rfl)]

lemma meyerhof_capacity_eq (ops : MathOps α) (profile : List (Stratum α))
    (Df B L GWL Theta epsilon c1 fi1 c2 fi2 qBar yBar : α) (sid : Nat) (ds : Stratum α)
    (hp : get_stratum_parameters profile Df = .ok (c1, fi1, c2, fi2))
    (hid : get_stratum_id profile Df = some sid)
    (hds : profile.get? sid = some ds)
    (hov : calculate_effective_overburden profile Df GWL B = .ok (qBar, yBar)) :
    meyerhof_capacity ops profile Df B L GWL Theta epsilon
      = .ok (meyerhof_core ops c1 fi1 c2 fi2 (ds.finalDepth - Df) qBar yBar Df B L
          Theta epsilon) := by
  unfold meyerhof_capacity
  rw [hp]
  dsimp only
  rw [hid]
  dsimp only
  rw [hds]
  dsimp only
  rw [hov]

/-! ## Claim C4 -/

/-- C4: whenever `d1 ≥ H` (the remaining thickness of the embedment stratum at
least the influence depth `H = (B/2)·tan(45° + φ1/2)`), `meyerhof_capacity`
returns a bilayer capacity exactly equal to the single-layer capacity computed
from the layer-1 parameters; the returned pair is an expression in which the
layer-2 parameters `c2`, `fi2` do not occur. -/
theorem meyerhof_no_interaction_shortcut (ops : MathOps α) (profile : List (Stratum α))
    (Df B L GWL Theta epsilon c1 fi1 c2 fi2 qBar yBar : α) (sid : Nat) (ds : Stratum α)
    (hp : get_stratum_parameters profile Df = .ok (c1, fi1, c2, fi2))
    (hid : get_stratum_id profile Df = some sid)
    (hds : profile.get? sid = some ds)
    (hov : calculate_effective_overburden profile Df GWL B = .ok (qBar, yBar))
    (hH : ds.finalDepth - Df ≥ (B / 2) * tanDeg ops (45 + fi1 / 2)) :
    meyerhof_capacity ops profile Df B L GWL Theta epsilon
      = .ok (q_ult_layer ops c1 fi1 qBar yBar Df B L Theta,
             q_ult_layer ops c1 fi1 qBar yBar Df B L Theta) := by
  rw [meyerhof_capacity_eq ops profile Df B L GWL Theta epsilon c1 fi1 c2 fi2 qBar yBar
    sid ds hp hid hds hov]
  simp only [meyerhof_core]
  rw [bilayer_value_no_interaction ops c1 fi1 c2 fi2 _ qBar yBar Df B L Theta epsilon hH]

/-- Witness for C4: the single-stratum profile `prof300` with `Df = 1`,
`B = L = 1` has `d1 = 9 ≥ H = 1/2`, and the bilayer capacity equals the
single-layer capacity. -/
theorem meyerhof_no_interaction_shortcut_witness :
    (stratum300.finalDepth - 1 ≥ ((1 : ℚ) / 2) * tanDeg dummyOps (45 + 20 / 2)) ∧
    meyerhof_capacity dummyOps prof300 1 1 1 100 0 (1 / 1000)
      = .ok (q_ult_layer dummyOps 5 20 (30000 / 121) (30000 / 121) 1 1 1 0,
             q_ult_layer dummyOps 5 20 (30000 / 121) (30000 / 121) 1 1 1 0) := by
  constructor
  · norm_num [stratum300, tanDeg, radiansOf, dummyOps]
  · exact meyerhof_no_interaction_shortcut dummyOps prof300 1 1 1 100 0 (1 / 1000)
      5 20 5 20 (30000 / 121) (30000 / 121) 0 stratum300
      (by norm_num [get_stratum_parameters, get_stratum_id, prof300, stratum300, List.get?])
      (by norm_num [get_stratum_id, prof300, stratum300])
      (by norm_num [prof300, List.get?])
      (by norm_num [calculate_effective_overburden, overburden_step, prof300, stratum300,
        waterUnitWeight, List.foldl])
      (by norm_num [stratum300, tanDeg, radiansOf, dummyOps])

/-! ## Claim C1 -/

/-- C1 (counterexample): on the two-stratum profile whose strata have identical
cohesion 50 and identical friction angle `1/10000`, with `Df = 1.8`,
`B = L = 1`, `GWL = 100`, `Theta = 0`, `epsilon = 1/1000`, the interaction path
is taken (d1 = 0.2 < H = 0.5), the clay-on-clay branch replaces `Nc` by `Ncs`,
and the bilayer capacity (≈ 435.5) differs from the single-layer capacity 36:
the homogeneous-profile identity fails on the code. -/
theorem homogeneous_identity_counterexample :
    get_stratum_parameters profHomogeneous (9 / 5 : ℚ) = .ok (50, 1 / 10000, 50, 1 / 10000) ∧
    meyerhof_capacity dummyOps profHomogeneous (9 / 5) 1 1 100 0 (1 / 1000)
      = .ok (36, 907322418 / 2083375) ∧
    (907322418 / 2083375 : ℚ) ≠ 36 := by
  refine ⟨?_, ?_, by norm_num⟩
  · norm_num [get_stratum_parameters, get_stratum_id, profHomogeneous, stratumClayA,
      stratumClayB50, List.get?]
  · norm_num [meyerhof_capacity, get_stratum_parameters, get_stratum_id,
      calculate_effective_overburden, overburden_step, waterUnitWeight, meyerhof_core,
      bilayer_value, q_ult_layer, capacity_factors, classify_case, clay_clay_value, clay_Ncs,
      Ncs_low, Ncs_mid, Ncs_high, caseClayClay, caseSandClay, caseClaySand, caseAvg,
      tanDeg, radiansOf, dummyOps, profHomogeneous, stratumClayA, stratumClayB50,
      List.get?, List.foldl]

/-- C1 (amended): for a profile whose stratum below the embedment stratum has
cohesion and friction angle identical to the embedment stratum's, the bilayer
controlling capacity equals the single-layer capacity whenever `d1 ≥ H` (the
no-interaction case); when `d1 < H` the branches do not degenerate to the
single-layer formula (see the counterexample). -/
theorem homogeneous_identity_no_interaction (ops : MathOps α) (profile : List (Stratum α))
    (Df B L GWL Theta epsilon c1 fi1 qBar yBar : α) (sid : Nat) (ds : Stratum α)
    (hp : get_stratum_parameters profile Df = .ok (c1, fi1, c1, fi1))
    (hid : get_stratum_id profile Df = some sid)
    (hds : profile.get? sid = some ds)
    (hov : calculate_effective_overburden profile Df GWL B = .ok (qBar, yBar))
    (hH : ds.finalDepth - Df ≥ (B / 2) * tanDeg ops (45 + fi1 / 2)) :
    ∃ q, meyerhof_capacity ops profile Df B L GWL Theta epsilon = .ok (q, q) := by
  refine ⟨q_ult_layer ops c1 fi1 qBar yBar Df B L Theta, ?_⟩
  rw [meyerhof_capacity_eq ops profile Df B L GWL Theta epsilon c1 fi1 c1 fi1 qBar yBar
    sid ds hp hid hds hov]
  simp only [meyerhof_core]
  rw [bilayer_value_no_interaction ops c1 fi1 c1 fi1 _ qBar yBar Df B L Theta epsilon hH]

/-- Witness for the amended C1: the homogeneous profile with `Df = 1/2` has
`d1 = 3/2 ≥ H = 1/2` and both returned capacities coincide. -/
theorem homogeneous_identity_no_interaction_witness :
    (stratumClayA.finalDepth - 1 / 2 ≥ ((1 : ℚ) / 2) * tanDeg dummyOps (45 + (1 / 10000) / 2)) ∧
    ∃ q, meyerhof_capacity dummyOps profHomogeneous (1 / 2) 1 1 100 0 (1 / 1000) = .ok (q, q) := by
  constructor
  · norm_num [stratumClayA, tanDeg, radiansOf, dummyOps]
  · exact homogeneous_identity_no_interaction dummyOps profHomogeneous (1 / 2) 1 1 100 0
      (1 / 1000) 50 (1 / 10000) 10 20 0 stratumClayA
      (by norm_num [get_stratum_parameters, get_stratum_id, profHomogeneous, stratumClayA,
        stratumClayB50, List.get?])
      (by norm_num [get_stratum_id, profHomogeneous, stratumClayA])
      (by norm_num [profHomogeneous, List.get?])
      (by norm_num [calculate_effective_overburden, overburden_step, profHomogeneous,
        stratumClayA, stratumClayB50, waterUnitWeight, List.foldl])
      (by norm_num [stratumClayA, tanDeg, radiansOf, dummyOps])

/-! ## Claim C5 -/

/-- C5: whenever the interaction path classifies the pair sand-on-clay or
clay-on-sand, the returned bilayer capacity equals
`min(q_ult_1, q_ult_prime)` with
`q_ult_prime = q_ult_2 + P·pv·Kp1·tan(φ1)/(A+ε) + P·d1·c1/(A+ε)`
(see `punching_prime`); in particular it never exceeds either candidate. -/
theorem meyerhof_punching_bound (ops : MathOps α) (profile : List (Stratum α))
    (Df B L GWL Theta epsilon c1 fi1 c2 fi2 qBar yBar : α) (sid : Nat) (ds : Stratum α)
    (hp : get_stratum_parameters profile Df = .ok (c1, fi1, c2, fi2))
    (hid : get_stratum_id profile Df = some sid)
    (hds : profile.get? sid = some ds)
    (hov : calculate_effective_overburden profile Df GWL B = .ok (qBar, yBar))
    (hlt : ds.finalDepth - Df < (B / 2) * tanDeg ops (45 + fi1 / 2))
    (hcase : classify_case c1 fi1 c2 fi2 epsilon = caseSandClay ∨
      classify_case c1 fi1 c2 fi2 epsilon = caseClaySand) :
    meyerhof_capacity ops profile Df B L GWL Theta epsilon
      = .ok (q_ult_layer ops c1 fi1 qBar yBar Df B L Theta,
          min (q_ult_layer ops c1 fi1 qBar yBar Df B L Theta)
            (punching_prime ops c1 fi1 c2 fi2 (ds.finalDepth - Df) qBar yBar Df B L Theta
              epsilon)) ∧
    min (q_ult_layer ops c1 fi1 qBar yBar Df B L Theta)
        (punching_prime ops c1 fi1 c2 fi2 (ds.finalDepth - Df) qBar yBar Df B L Theta epsilon)
      ≤ q_ult_layer ops c1 fi1 qBar yBar Df B L Theta ∧
    min (q_ult_layer ops c1 fi1 qBar yBar Df B L Theta)
        (punching_prime ops c1 fi1 c2 fi2 (ds.finalDepth - Df) qBar yBar Df B L Theta epsilon)
      ≤ punching_prime ops c1 fi1 c2 fi2 (ds.finalDepth - Df) qBar yBar Df B L Theta epsilon := by
  refine ⟨?_, min_le_left _ _, min_le_right _ _⟩
  rw [meyerhof_capacity_eq ops profile Df B L GWL Theta epsilon c1 fi1 c2 fi2 qBar yBar
    sid ds hp hid hds hov]
  simp only [meyerhof_core]
  rw [bilayer_value_punching ops c1 fi1 c2 fi2 _ qBar yBar Df B L Theta epsilon hlt hcase]

/-- Witness for C5: the sand-over-clay profile with `Df = 1.8`, `B = L = 1`
takes the punching branch (`case3_a`), and the result is the minimum of the two
candidates. -/
theorem meyerhof_punching_bound_witness :
    (classify_case (1 / 10000 : ℚ) 30 80 (1 / 10000) (1 / 1000) = caseSandClay ∨
      classify_case (1 / 10000 : ℚ) 30 80 (1 / 10000) (1 / 1000) = caseClaySand) ∧
    meyerhof_capacity dummyOps profSandOverClay (9 / 5) 1 1 100 0 (1 / 1000)
      = .ok (q_ult_layer dummyOps (1 / 10000) 30 36 20 (9 / 5) 1 1 0,
          min (q_ult_layer dummyOps (1 / 10000) 30 36 20 (9 / 5) 1 1 0)
            (punching_prime dummyOps (1 / 10000) 30 80 (1 / 10000) (1 / 5) 36 20 (9 / 5) 1 1 0
              (1 / 1000))) := by
  have hcase : classify_case (1 / 10000 : ℚ) 30 80 (1 / 10000) (1 / 1000) = caseSandClay ∨
      classify_case (1 / 10000 : ℚ) 30 80 (1 / 10000) (1 / 1000) = caseClaySand := by
    left
    norm_num [classify_case, caseSandClay]
  refine ⟨hcase, ?_⟩
  have h := meyerhof_punching_bound dummyOps profSandOverClay (9 / 5) 1 1 100 0 (1 / 1000)
    (1 / 10000) 30 80 (1 / 10000) 36 20 0 stratumSand
    (by norm_num [get_stratum_parameters, get_stratum_id, profSandOverClay, stratumSand,
      stratumClayB, List.get?])
    (by norm_num [get_stratum_id, profSandOverClay, stratumSand])
    (by norm_num [profSandOverClay, List.get?])
    (by norm_num [calculate_effective_overburden, overburden_step, profSandOverClay,
      stratumSand, stratumClayB, waterUnitWeight, List.foldl])
    (by norm_num [stratumSand, tanDeg, radiansOf, dummyOps])
    hcase
  have hd : stratumSand.finalDepth - (9 / 5 : ℚ) = 1 / 5 := by norm_num [stratumSand]
  rw [hd] at h
  exact h.1

/-! ## Claim C2 -/

/-- C2 (counterexample): in the spec's scenario both friction angles are
`0 + ε` (the load-time ε-adjusted zero), and the classifier compares with a
strict `φ < ε`; `ε < ε` is false, so the pair is classified `"case2"`
(c-φ on c-φ), not clay-on-clay, and on the scenario profile the returned
bilayer capacity is the case-2 value 36, not a clay-on-clay value. -/
theorem clay_scenario_epsilon_counterexample :
    classify_case (50 : ℚ) (1 / 1000) 80 (1 / 1000) (1 / 1000) = caseAvg ∧
    caseAvg ≠ caseClayClay ∧
    meyerhof_capacity dummyOps profClayOverClayEps (9 / 5) 1 1 100 0 (1 / 1000)
      = .ok (36, 36) := by
  refine ⟨?_, ?_, ?_⟩
  · norm_num [classify_case, caseAvg]
  · simp [caseAvg, caseClayClay]
  · norm_num [meyerhof_capacity, get_stratum_parameters, get_stratum_id,
      calculate_effective_overburden, overburden_step, waterUnitWeight, meyerhof_core,
      bilayer_value, q_ult_layer, capacity_factors, classify_case, clay_clay_value, clay_Ncs,
      Ncs_low, Ncs_mid, Ncs_high, cphi_avg_value, punching_prime, caseClayClay, caseSandClay,
      caseClaySand, caseAvg, tanDeg, radiansOf, dummyOps, profClayOverClayEps, stratumClayAEps,
      stratumClayBEps, stratumClayA, stratumClayB, List.get?, List.foldl]
    simp

/-- C2 (amended): for the scenario profile with friction angle strictly below
the classification threshold (stored value `1/10000`, runtime ε `1/1000`),
`meyerhof_capacity` takes the interaction path (`d1 = 0.2 < H = 0.5`),
classifies the pair clay-on-clay, computes `CR = 80/(50+ε) > 1`, uses the
`N1s/N2s` branch, and the resulting `Ncs` lies strictly above the `CR = 1`
boundary value of the middle branch and strictly below `N2s`, the large-`CR`
factor of the harmonic-mean formula. -/
theorem clay_scenario_amended :
    get_stratum_parameters profClayOverClay (9 / 5 : ℚ)
      = .ok (50, 1 / 10000, 80, 1 / 10000) ∧
    ((1 : ℚ) / 5) < (1 / 2) * tanDeg dummyOps (45 + (1 / 10000) / 2) ∧
    classify_case (50 : ℚ) (1 / 10000) 80 (1 / 10000) (1 / 1000) = caseClayClay ∧
    (1 : ℚ) < 80 / (50 + 1 / 1000) ∧
    meyerhof_capacity dummyOps profClayOverClay (9 / 5) 1 1 100 0 (1 / 1000)
      = .ok (36, 50 * clay_Ncs (80 / (50 + 1 / 1000)) (1 / 5) 1 (1 / 1000)
          * (6 / 5) * (34 / 25) + 36) ∧
    Ncs_mid 1 (1 / 5) 1 < Ncs_high ((1 : ℚ) / 5) 1 (1 / 1000) ∧
    Ncs_high ((1 : ℚ) / 5) 1 (1 / 1000) < 207 / 50 + (11 / 10) * 1 / (1 / 5 + 1 / 1000) := by
  refine ⟨?_, ?_, ?_, by norm_num, ?_, ?_, ?_⟩
  · norm_num [get_stratum_parameters, get_stratum_id, profClayOverClay, stratumClayA,
      stratumClayB, List.get?]
  · norm_num [tanDeg, radiansOf, dummyOps]
  · norm_num [classify_case, caseClayClay]
  · norm_num [meyerhof_capacity, get_stratum_parameters, get_stratum_id,
      calculate_effective_overburden, overburden_step, waterUnitWeight, meyerhof_core,
      bilayer_value, q_ult_layer, capacity_factors, classify_case, clay_clay_value, clay_Ncs,
      Ncs_low, Ncs_mid, Ncs_high, caseClayClay, caseSandClay, caseClaySand, caseAvg,
      tanDeg, radiansOf, dummyOps, profClayOverClay, stratumClayA, stratumClayB,
      List.get?, List.foldl]
  · norm_num [Ncs_mid, Ncs_high]
  · norm_num [Ncs_high]

/-! ## Claim C3 -/

/-- C3 (counterexample): at `d1 = 0.2`, `B = 1` the clay-on-clay `Ncs` formula
is discontinuous at both branch boundaries: the `CR < 0.7` branch and the
middle branch disagree at `CR = 0.7` by more than `1/3` (3.898 vs 3.5082), and
the middle branch and the `CR > 1` branch disagree at `CR = 1` by more than 2
(4.896 vs ≈ 7.845) — far beyond floating-point tolerance. -/
theorem Ncs_boundary_counterexample :
    Ncs_low ((7 : ℚ) / 10) (1 / 5) 1 ≠ Ncs_mid ((7 : ℚ) / 10) (1 / 5) 1 ∧
    Ncs_low ((7 : ℚ) / 10) (1 / 5) 1 - Ncs_mid ((7 : ℚ) / 10) (1 / 5) 1 > 1 / 3 ∧
    Ncs_mid (1 : ℚ) (1 / 5) 1 ≠ Ncs_high ((1 : ℚ) / 5) 1 (1 / 1000) ∧
    Ncs_high ((1 : ℚ) / 5) 1 (1 / 1000) - Ncs_mid (1 : ℚ) (1 / 5) 1 > 2 := by
  refine ⟨?_, ?_, ?_, ?_⟩ <;> norm_num [Ncs_low, Ncs_mid, Ncs_high]

/-- C3 (amended): the piecewise `Ncs` formula is discontinuous at its branch
boundaries: for every `d1 > 0` and `B > 0` the middle branch at `CR = 0.7`
equals exactly 0.9 times the lower branch there — a strict drop — and at
`CR = 1` the middle and upper branches disagree (concretely at `d1 = 0.2`,
`B = 1`, `ε = 1/1000`). -/
theorem Ncs_boundary_discontinuity (d1 B : ℚ) (hd : 0 < d1) (hB : 0 < B) :
    Ncs_mid (7 / 10) d1 B = (9 / 10) * Ncs_low (7 / 10) d1 B ∧
    Ncs_mid (7 / 10) d1 B < Ncs_low (7 / 10) d1 B ∧
    Ncs_mid (1 : ℚ) (1 / 5) 1 ≠ Ncs_high ((1 : ℚ) / 5) 1 (1 / 1000) := by
  refine ⟨rfl, ?_, by norm_num [Ncs_mid, Ncs_high]⟩
  have ht : 0 < (3 / 2) * d1 / B := by positivity
  simp only [Ncs_low, Ncs_mid]
  nlinarith [ht]

/-- Witness for the amended C3 at `d1 = 1`, `B = 1`. -/
theorem Ncs_boundary_discontinuity_witness :
    (0 : ℚ) < 1 ∧
    (Ncs_mid (7 / 10) (1 : ℚ) 1 = (9 / 10) * Ncs_low (7 / 10) (1 : ℚ) 1 ∧
     Ncs_mid (7 / 10) (1 : ℚ) 1 < Ncs_low (7 / 10) (1 : ℚ) 1 ∧
     Ncs_mid (1 : ℚ) (1 / 5) 1 ≠ Ncs_high ((1 : ℚ) / 5) 1 (1 / 1000)) :=
  ⟨by norm_num, Ncs_boundary_discontinuity 1 1 (by norm_num) (by norm_num)⟩

/-! ## Claim C7 -/

/-- C7: `calculate_allowable_capacity` divides the controlling bilayer capacity
by 3 for `"Bowles_FS_3.0"`, by `1/0.45` for `"AASHTO_2020"`, and by 3 for any
other code string, without failing; for ultimate capacity 300 these give
100, 135 and 100. -/
theorem allowable_capacity_mapping (ops : MathOps α) (profile : List (Stratum α))
    (Df B L GWL Theta epsilon s u : α) (code : String)
    (hm : meyerhof_capacity ops profile Df B L GWL Theta epsilon = .ok (s, u))
    (hc1 : code ≠ codeBowles) (hc2 : code ≠ codeAASHTO) :
    calculate_allowable_capacity ops profile Df B L GWL Theta epsilon codeBowles
      = .ok (u, u / 3) ∧
    calculate_allowable_capacity ops profile Df B L GWL Theta epsilon codeAASHTO
      = .ok (u, u / (1 / (9 / 20))) ∧
    calculate_allowable_capacity ops profile Df B L GWL Theta epsilon code
      = .ok (u, u / 3) ∧
    (u = 300 → u / 3 = 100 ∧ u / (1 / (9 / 20)) = 135) := by
  refine ⟨?_, ?_, ?_, ?_⟩
  · unfold calculate_allowable_capacity
    rw [hm]
    dsimp only
    rw [if_pos rfl]
  · unfold calculate_allowable_capacity
    rw [hm]
    dsimp only
    rw [if_neg (by decide), if_pos rfl]
  · unfold calculate_allowable_capacity
    rw [hm]
    dsimp only
    rw [if_neg hc1, if_neg hc2]
  · intro hu
    subst hu
    constructor <;> norm_num

/-- Witness for C7: on `prof300` the controlling capacity is exactly 300 kPa
and the three code identifiers yield 100, 135 and 100 kPa. -/
theorem allowable_capacity_mapping_witness :
    meyerhof_capacity dummyOps prof300 1 1 1 100 0 (1 / 1000) = .ok (300, 300) ∧
    calculate_allowable_capacity dummyOps prof300 1 1 1 100 0 (1 / 1000) codeBowles
      = .ok (300, 100) ∧
    calculate_allowable_capacity dummyOps prof300 1 1 1 100 0 (1 / 1000) codeAASHTO
      = .ok (300, 135) ∧
    calculate_allowable_capacity dummyOps prof300 1 1 1 100 0 (1 / 1000) codeOther
      = .ok (300, 100) := by
  have hm : meyerhof_capacity dummyOps prof300 1 1 1 100 0 (1 / 1000) = .ok (300, 300) := by
    norm_num [meyerhof_capacity, get_stratum_parameters, get_stratum_id,
      calculate_effective_overburden, overburden_step, waterUnitWeight, meyerhof_core,
      bilayer_value, q_ult_layer, capacity_factors, tanDeg, radiansOf, dummyOps, prof300,
      stratum300, List.get?, List.foldl]
  obtain ⟨h1, h2, h3, _⟩ := allowable_capacity_mapping dummyOps prof300 1 1 1 100 0 (1 / 1000)
    300 300 codeOther hm (by decide) (by decide)
  refine ⟨hm, ?_, ?_, ?_⟩
  · rw [h1]
    norm_num
  · rw [h2]
    norm_num
  · rw [h3]
    norm_num

/-! ## Claim C6 -/

lemma sortedStrataB_head_lt (s : Stratum α) (rest : List (Stratum α))
    (h : sortedStrataB (s :: rest) = true) : s.initialDepth < s.finalDepth := by
  cases rest with
  | nil => simpa [sortedStrataB] using h
  | cons t ts =>
    simp only [sortedStrataB, Bool.and_eq_true, decide_eq_true_eq] at h
    exact h.1.1

lemma sortedStrataB_head_le_initial (s : Stratum α) (rest : List (Stratum α))
    (h : sortedStrataB (s :: rest) = true) :
    ∀ u ∈ s :: rest, s.initialDepth ≤ u.initialDepth := by
  induction rest generalizing s with
  | nil =>
    intro u hu
    rw [List.mem_singleton.mp hu]
  | cons t ts ih =>
    intro u hu
    simp only [sortedStrataB, Bool.and_eq_true, decide_eq_true_eq] at h
    rcases List.mem_cons.mp hu with hu | hu
    · rw [hu]
    · exact le_trans (le_of_lt (h.1.2 ▸ h.1.1)) (ih t h.2 u hu)

lemma sortedStrataB_final_le_last (l : List (Stratum α)) (sl : Stratum α)
    (h : sortedStrataB l = true) (hlast : l.getLast? = some sl) :
    ∀ u ∈ l, u.finalDepth ≤ sl.finalDepth := by
  induction l with
  | nil => cases hlast
  | cons s rest ih =>
    cases rest with
    | nil =>
      intro u hu
      rw [List.mem_singleton.mp hu]
      cases hlast
      rfl
    | cons t ts =>
      simp only [sortedStrataB, Bool.and_eq_true, decide_eq_true_eq] at h
      rw [List.getLast?_cons_cons] at hlast
      intro u hu
      rcases List.mem_cons.mp hu with hu | hu
      · have ht : t.finalDepth ≤ sl.finalDepth :=
          ih h.2 hlast t (List.mem_cons_self t ts)
        have hlt : t.initialDepth < t.finalDepth := sortedStrataB_head_lt t ts h.2
        rw [hu, h.1.2]
        exact le_trans (le_of_lt hlt) ht
      · exact ih h.2 hlast u hu

lemma get_stratum_id_eq_none (profile : List (Stratum α)) (d : α)
    (h : ∀ u ∈ profile, ¬(u.initialDepth ≤ d ∧ d < u.finalDepth)) :
    get_stratum_id profile d = none := by
  induction profile with
  | nil => rfl
  | cons s rest ih =>
    simp only [get_stratum_id]
    rw [if_neg (h s (List.mem_cons_self s rest)),
      ih fun u hu => h u (List.mem_cons_of_mem s hu)]
    rfl

/-- C6 (counterexample): depth 50 lies outside the covered range `[0, 10)` of
the two-stratum profile, yet `get_stratum_id` (and `get_stratum_description`)
silently return the null value `none` — Python's implicit `return None` — with
no error, refuting the claim that the stratum lookup itself fails with a
NotFound/DepthOutOfRange error rather than returning a null stratum. -/
theorem out_of_range_returns_none_counterexample :
    get_stratum_id profClayOverClay (50 : ℚ) = none ∧
    get_stratum_description profClayOverClay (50 : ℚ) = none := by
  constructor <;>
    norm_num [get_stratum_id, get_stratum_description, profClayOverClay, stratumClayA,
      stratumClayB]

/-- C6 (amended): for every well-formed profile and every depth outside the
covered range `[first.initialDepth, last.finalDepth)`, `get_stratum_id`
silently returns the null id `none` (no error), and the failure surfaces only
afterwards: `get_stratum_parameters` applied to the same depth fails with the
`KeyError` raised when the null id is used as a row label. -/
theorem out_of_range_lookup_behavior (profile : List (Stratum α)) (s0 sl : Stratum α)
    (rest : List (Stratum α)) (d : α)
    (hprof : profile = s0 :: rest)
    (hlast : profile.getLast? = some sl)
    (hwf : sortedStrataB profile = true)
    (hout : d < s0.initialDepth ∨ sl.finalDepth ≤ d) :
    get_stratum_id profile d = none ∧
    get_stratum_parameters profile d = .error keyError := by
  have hmiss : ∀ u ∈ profile, ¬(u.initialDepth ≤ d ∧ d < u.finalDepth) := by
    intro u hu hc
    rcases hout with h | h
    · have hle : s0.initialDepth ≤ u.initialDepth := by
        refine sortedStrataB_head_le_initial s0 rest ?_ u ?_
        · rw [← hprof]
          exact hwf
        · rw [← hprof]
          exact hu
      exact absurd (le_trans hle hc.1) (not_le.mpr h)
    · have hge : u.finalDepth ≤ sl.finalDepth :=
        sortedStrataB_final_le_last profile sl hwf hlast u hu
      exact absurd (lt_of_lt_of_le hc.2 hge) (not_lt.mpr h)
  have hid := get_stratum_id_eq_none profile d hmiss
  refine ⟨hid, ?_⟩
  unfold get_stratum_parameters
  rw [hid]

/-- Witness for the amended C6: the two-stratum profile covers `[0, 10)`;
at depth 50 the id lookup returns `none` and the parameter lookup fails. -/
theorem out_of_range_lookup_behavior_witness :
    sortedStrataB profClayOverClay = true ∧
    get_stratum_id profClayOverClay (50 : ℚ) = none ∧
    get_stratum_parameters profClayOverClay (50 : ℚ) = .error keyError := by
  have hwf : sortedStrataB profClayOverClay = true := by
    norm_num [sortedStrataB, profClayOverClay, stratumClayA, stratumClayB]
  have h := out_of_range_lookup_behavior profClayOverClay stratumClayA stratumClayB
    [stratumClayB] 50 rfl (by rfl) hwf (Or.inr (by norm_num [stratumClayB]))
  exact ⟨hwf, h.1, h.2⟩

/-! ## Claim C8 -/

/-- C8: `get_stratum_parameters` returns the located stratum's `(c1, φ1)`
together with the next stratum's `(c2, φ2)`; when the located stratum is the
last one in the profile, the bottom stratum repeats itself:
`(c2, φ2) = (c1, φ1)`. -/
theorem stratum_parameters_bottom_repeat (profile : List (Stratum α)) (Df : α) (i : Nat)
    (s : Stratum α)
    (hid : get_stratum_id profile Df = some i)
    (hs : profile.get? i = some s) :
    (profile.length = i + 1 →
      get_stratum_parameters profile Df
        = .ok (s.cohesion, s.frictionAngle, s.cohesion, s.frictionAngle)) ∧
    (∀ t, profile.get? (i + 1) = some t →
      get_stratum_parameters profile Df
        = .ok (s.cohesion, s.frictionAngle, t.cohesion, t.frictionAngle)) := by
  constructor
  · intro hlen
    unfold get_stratum_parameters
    rw [hid]
    dsimp only
    rw [hs]
    dsimp only
    rw [if_neg]
    rw [hlen]
    simp
  · intro t ht
    have hlt : i + 1 < profile.length := by
      rcases List.get?_eq_some.mp ht with ⟨h1, _⟩
      exact h1
    unfold get_stratum_parameters
    rw [hid]
    dsimp only
    rw [hs]
    dsimp only
    rw [if_pos (by omega), ht]

/-- Witness for C8: depth 5 lies in the last stratum (parameters repeat);
depth 1 lies in the first stratum (parameters of the next stratum follow). -/
theorem stratum_parameters_bottom_repeat_witness :
    get_stratum_parameters profClayOverClay (5 : ℚ) = .ok (80, 1 / 10000, 80, 1 / 10000) ∧
    get_stratum_parameters profClayOverClay (1 : ℚ) = .ok (50, 1 / 10000, 80, 1 / 10000) := by
  constructor
  · have h := (stratum_parameters_bottom_repeat profClayOverClay (5 : ℚ) 1 stratumClayB
      (by norm_num [get_stratum_id, profClayOverClay, stratumClayA, stratumClayB])
      (by norm_num [profClayOverClay, List.get?])).1 (by norm_num [profClayOverClay])
    rw [h]
    norm_num [stratumClayB]
  · have h := (stratum_parameters_bottom_repeat profClayOverClay (1 : ℚ) 0 stratumClayA
      (by norm_num [get_stratum_id, profClayOverClay, stratumClayA, stratumClayB])
      (by norm_num [profClayOverClay, List.get?])).2 stratumClayB
      (by norm_num [profClayOverClay, List.get?])
    rw [h]
    norm_num [stratumClayA, stratumClayB]

/-! ## Claims C9 and C10 -/

lemma mapExcept_ok_mem {γ β ε' : Type} (f : γ → Except ε' β) :
    ∀ (l : List γ) (out : List β) (y : β), mapExcept f l = .ok out → y ∈ out →
      ∃ x, x ∈ l ∧ f x = .ok y := by
  intro l
  induction l with
  | nil =>
    intro out y h hy
    simp only [mapExcept] at h
    injection h with h2
    rw [← h2] at hy
    cases hy
  | cons x xs ih =>
    intro out y h hy
    simp only [mapExcept] at h
    cases hfx : f x with
    | error e =>
      rw [hfx] at h
      simp at h
    | ok y0 =>
      rw [hfx] at h
      cases hrec : mapExcept f xs with
      | error e =>
        rw [hrec] at h
        simp at h
      | ok ys =>
        rw [hrec] at h
        injection h with h2
        subst h2
        rcases List.mem_cons.mp hy with h3 | h3
        · refine ⟨x, List.mem_cons_self x xs, ?_⟩
          rw [hfx, h3]
        · rcases ih ys y hrec h3 with ⟨w, hw, hfw⟩
          exact ⟨w, List.mem_cons_of_mem x hw, hfw⟩

lemma mapExcept_ok_map {γ β ε' : Type} (f : γ → Except ε' β) (g : β → γ)
    (hg : ∀ x y, f x = .ok y → g y = x) :
    ∀ (l : List γ) (out : List β), mapExcept f l = .ok out → out.map g = l := by
  intro l
  induction l with
  | nil =>
    intro out h
    simp only [mapExcept] at h
    injection h with h2
    rw [← h2]
    rfl
  | cons x xs ih =>
    intro out h
    simp only [mapExcept] at h
    cases hfx : f x with
    | error e =>
      rw [hfx] at h
      simp at h
    | ok y0 =>
      rw [hfx] at h
      cases hrec : mapExcept f xs with
      | error e =>
        rw [hrec] at h
        simp at h
      | ok ys =>
        rw [hrec] at h
        injection h with h2
        subst h2
        simp only [List.map]
        rw [hg x y0 hfx, ih ys hrec]

lemma check_footing_row_original (ops : MathOps α) (profile : List (Stratum α))
    (GWL Theta epsilon : α) (Code : String) (x : FootingRecord α) (y : CheckedFooting α)
    (hxy : check_footing_row ops profile GWL Theta epsilon Code x = .ok y) :
    y.original = x := by
  unfold check_footing_row at hxy
  cases hca : calculate_allowable_capacity ops profile x.embedmentDepth x.footingBase
      x.footingLength GWL Theta epsilon Code with
  | error e =>
    rw [hca] at hxy
    simp at hxy
  | ok p =>
    rcases p with ⟨qU, qA⟩
    rw [hca] at hxy
    dsimp only at hxy
    injection hxy with h2
    rw [← h2]

/-- C9: the compliance check returns the footing-configuration table it was
given, extended with exactly the four result fields (ultimate capacity,
allowable capacity, design stress, pass/fail flag): the embedded original
records equal the input records, in input order, one output row per input row,
and the added fields are computed from each record's own geometry and load. -/
theorem check_structural_frame (ops : MathOps α) (profile : List (Stratum α))
    (cfg : List (FootingRecord α)) (GWL Theta epsilon : α) (Code : String)
    (out : List (CheckedFooting α))
    (h : check_structural_design_capacity ops profile cfg GWL Theta epsilon Code = .ok out) :
    out.map CheckedFooting.original = cfg ∧
    out.length = cfg.length ∧
    ∀ r ∈ out,
      r.designStress
        = r.original.designLoad / (r.original.footingBase * r.original.footingLength) ∧
      r.capacityCheck
        = (if r.allowableCapacity ≥ r.designStress then passMark else failMark) := by
  unfold check_structural_design_capacity at h
  have hmap := mapExcept_ok_map _ CheckedFooting.original
    (check_footing_row_original ops profile GWL Theta epsilon Code) cfg out h
  refine ⟨hmap, ?_, ?_⟩
  · rw [← hmap]
    simp
  · intro r hr
    rcases mapExcept_ok_mem _ cfg out r h hr with ⟨x, _, hfx⟩
    unfold check_footing_row at hfx
    cases hca : calculate_allowable_capacity ops profile x.embedmentDepth x.footingBase
        x.footingLength GWL Theta epsilon Code with
    | error e =>
      rw [hca] at hfx
      simp at hfx
    | ok p =>
      rcases p with ⟨qU, qA⟩
      rw [hca] at hfx
      dsimp only at hfx
      injection hfx with h2
      rw [← h2]
      exact ⟨rfl, rfl⟩

/-- Witness for C9: one footing record on `prof300`; the output embeds the
unchanged input record with the four computed result fields. -/
theorem check_structural_frame_witness :
    check_structural_design_capacity dummyOps prof300 [footingZ1] 100 0 (1 / 1000) codeBowles
      = .ok [checkedZ1] ∧
    List.map CheckedFooting.original [checkedZ1] = [footingZ1] := by
  have h : check_structural_design_capacity dummyOps prof300 [footingZ1] 100 0 (1 / 1000)
      codeBowles = .ok [checkedZ1] := by
    norm_num [check_structural_design_capacity, mapExcept, check_footing_row,
      calculate_allowable_capacity, meyerhof_capacity, get_stratum_parameters, get_stratum_id,
      calculate_effective_overburden, overburden_step, waterUnitWeight, meyerhof_core,
      bilayer_value, q_ult_layer, capacity_factors, tanDeg, radiansOf, dummyOps, prof300,
      stratum300, footingZ1, checkedZ1, List.get?, List.foldl]
  exact ⟨h, (check_structural_frame dummyOps prof300 [footingZ1] 100 0 (1 / 1000) codeBowles
    [checkedZ1] h).1⟩

/-- C10: in every row emitted by `generate_capacity_table`, the ultimate
capacity obtained through `calculate_allowable_capacity` (which re-runs the
whole capacity chain) equals the bilayer capacity obtained from the direct
`meyerhof_capacity` call on the same inputs. -/
theorem capacity_table_redundant_agree (ops : MathOps α) (profile : List (Stratum α))
    (Dfs Bs Ls : List α) (GWL Theta epsilon : α) (Code : String)
    (rows : List (CapacityRow α)) (r : CapacityRow α)
    (hrows : generate_capacity_table ops profile Dfs Bs Ls GWL Theta epsilon Code = .ok rows)
    (hr : r ∈ rows) :
    r.ultimateCapacity = r.qUltBilayer := by
  unfold generate_capacity_table at hrows
  rcases mapExcept_ok_mem _ _ rows r hrows hr with ⟨x, _, hfx⟩
  rcases x with ⟨Df, B, L⟩
  unfold capacity_row at hfx
  dsimp only at hfx
  cases hm : meyerhof_capacity ops profile Df B L GWL Theta epsilon with
  | error e =>
    rw [hm] at hfx
    simp at hfx
  | ok p =>
    rcases p with ⟨qs, qb⟩
    rw [hm] at hfx
    dsimp only at hfx
    cases ha : calculate_allowable_capacity ops profile Df B L GWL Theta epsilon Code with
    | error e =>
      rw [ha] at hfx
      simp at hfx
    | ok p2 =>
      rcases p2 with ⟨qf, qa⟩
      rw [ha] at hfx
      dsimp only at hfx
      cases hp : get_stratum_parameters profile Df with
      | error e =>
        rw [hp] at hfx
        simp at hfx
      | ok p3 =>
        obtain ⟨c1, fi1, c2, fi2⟩ := p3
        rw [hp] at hfx
        dsimp only at hfx
        injection hfx with h2
        have hqf : qf = qb := by
          unfold calculate_allowable_capacity at ha
          rw [hm] at ha
          dsimp only at ha
          split at ha
          · injection ha with h3
            rw [Prod.mk.injEq] at h3
            exact h3.1.symm
          · split at ha
            · injection ha with h3
              rw [Prod.mk.injEq] at h3
              exact h3.1.symm
            · injection ha with h3
              rw [Prod.mk.injEq] at h3
              exact h3.1.symm
        rw [← h2]
        exact hqf

/-- Witness for C10: the one-combination table on `prof300` has
`ultimateCapacity = qUltBilayer = 300` in its single row. -/
theorem capacity_table_redundant_agree_witness :
    generate_capacity_table dummyOps prof300 [(1 : ℚ)] [1] [1] 100 0 (1 / 1000) codeBowles
      = .ok [row300] ∧
    row300.ultimateCapacity = row300.qUltBilayer := by
  have h : generate_capacity_table dummyOps prof300 [(1 : ℚ)] [1] [1] 100 0 (1 / 1000)
      codeBowles = .ok [row300] := by
    norm_num [generate_capacity_table, mapExcept, capacity_row, calculate_allowable_capacity,
      meyerhof_capacity, get_stratum_parameters, get_stratum_id, get_stratum_description,
      calculate_effective_overburden, overburden_step, waterUnitWeight, meyerhof_core,
      bilayer_value, q_ult_layer, capacity_factors, tanDeg, radiansOf, dummyOps, prof300,
      stratum300, row300, List.get?, List.foldl, List.filter, List.map, List.flatMap]
  exact ⟨h, capacity_table_redundant_agree dummyOps prof300 [(1 : ℚ)] [1] [1] 100 0 (1 / 1000)
    codeBowles [row300] row300 h (List.mem_singleton.mpr rfl)⟩

end Meyerhof
